import Mathlib

/-!
Shallow embedding of the queuectl job queue (src/queuectl/db.py,
src/queuectl/worker.py, src/queuectl/cli.py).

The SQLite store is modelled as two lists of rows kept in rowid
(insertion) order: `jobs` and `dlq`.  Timestamps (`datetime.now()`)
are `Nat` parameters supplied by the caller; each distinct call of
`datetime.now()` in the source becomes a distinct parameter.  A SQL
statement that can raise (a PRIMARY KEY violation, or an
OperationalError on lock contention) is modelled with `Except`: the
error value carries the state visible after the transaction rolled
back, which for every operation here is the unchanged input state.
-/

/-- The `state` column of a `jobs` row: the four states used by the code. -/
inductive JobState
  | pending
  | processing
  | failed
  | completed
deriving DecidableEq, Repr

/-- A row of the `jobs` table (db.py, `_create_schema`). -/
structure Job where
  id : String
  command : String
  state : JobState
  attempts : Nat
  max_retries : Nat
  run_at : Nat
  created_at : Nat
  updated_at : Nat
deriving DecidableEq, Repr

/-- A row of the `dlq` table (db.py, `_create_schema`); `state` has
schema default `"dead"` and is never set explicitly by the code. -/
structure DlqRow where
  id : String
  command : String
  state : String
  attempts : Nat
  max_retries : Nat
  created_at : Nat
  failed_at : Nat
deriving DecidableEq, Repr

/-- The persistent store: both tables, rows in rowid (insertion) order. -/
structure QueueState where
  jobs : List Job
  dlq : List DlqRow
deriving DecidableEq, Repr

/-- Equality of `Except` results is decidable, so concrete runs of the
fallible operations can be checked by evaluation. -/
instance {ε α : Type} [DecidableEq ε] [DecidableEq α] :
    DecidableEq (Except ε α) := fun a b =>
  match a, b with
  | Except.error e1, Except.error e2 =>
    if h : e1 = e2 then isTrue (by rw [h])
    else isFalse (by intro hc; cases hc; exact h rfl)
  | Except.error _, Except.ok _ => isFalse (by intro hc; cases hc)
  | Except.ok _, Except.error _ => isFalse (by intro hc; cases hc)
  | Except.ok a1, Except.ok a2 =>
    if h : a1 = a2 then isTrue (by rw [h])
    else isFalse (by intro hc; cases hc; exact h rfl)

/-- The configuration dictionary (config.py `DEFAULT_CONFIG` keys). -/
structure Config where
  max_retries : Nat
  backoff_base : Nat
deriving DecidableEq, Repr

/-- The `job_data` dict handed to `JobQueue.enqueue_job`: `command` is
present, `id` and `max_retries` are optional keys. -/
structure JobData where
  id : Option String
  command : String
  max_retries : Option Nat
deriving DecidableEq, Repr

/-- Is some `jobs` row keyed by `i`?  Models the PRIMARY KEY constraint
of the `jobs` table. -/
def jobsHasId (s : QueueState) (i : String) : Bool :=
  s.jobs.any (fun j => j.id == i)

/-- Is some `dlq` row keyed by `i`?  Models the PRIMARY KEY constraint
of the `dlq` table. -/
def dlqHasId (s : QueueState) (i : String) : Bool :=
  s.dlq.any (fun r => r.id == i)

/-- `SELECT * FROM jobs WHERE id = ?` on a keyed column: first match. -/
def lookupJob (s : QueueState) (i : String) : Option Job :=
  s.jobs.find? (fun j => j.id == i)

/-- `SELECT * FROM dlq WHERE id = ?` on a keyed column: first match. -/
def lookupDlq (s : QueueState) (i : String) : Option DlqRow :=
  s.dlq.find? (fun r => r.id == i)

/-- `JobQueue.enqueue_job(job_data, config)` (db.py lines 55-75).
`fresh` stands for the `str(uuid.uuid4())` default of
`job_data.get("id", ...)`; `now` is the single `datetime.now()`.
The INSERT names no `state` or `attempts` column, so the schema
defaults `pending` and `0` apply.  The INSERT touches only the
`jobs` table, so only its PRIMARY KEY can reject the row; a duplicate
raises IntegrityError and the transaction rolls back. -/
def enqueue_job (s : QueueState) (jd : JobData) (cfg : Config) (fresh : String)
    (now : Nat) : Except QueueState (String × QueueState) :=
  let job_id := jd.id.getD fresh
  if jobsHasId s job_id then
    .error s
  else
    .ok (job_id,
      { jobs := s.jobs ++
          [{ id := job_id, command := jd.command, state := JobState.pending,
             attempts := 0, max_retries := jd.max_retries.getD cfg.max_retries,
             run_at := now, created_at := now, updated_at := now }],
        dlq := s.dlq })

/-- The WHERE clause of `fetch_job`:
state is `pending` or `failed`, and `run_at <= now`. -/
def claimable (now : Nat) (j : Job) : Bool :=
  (match j.state with
   | JobState.pending => true
   | JobState.failed => true
   | _ => false) && decide (j.run_at ≤ now)

/-- `ORDER BY created_at ASC LIMIT 1` over a scan in rowid order: the
leftmost row whose `created_at` is minimal.  The SQL names no second
sort key, so ties between equal `created_at` fall back to scan order. -/
def selectOldest : List Job → Option Job
  | [] => none
  | j :: rest =>
    match selectOldest rest with
    | none => some j
    | some k => if j.created_at ≤ k.created_at then some j else some k

/-- `JobQueue.fetch_job()` (db.py lines 77-118).  `busy = true` models
an `sqlite3.OperationalError` raised inside the transaction (e.g. the
BEGIN IMMEDIATE lock wait timing out): the except-branch rolls back
and returns `None`.  `now` is the `datetime.now()` of the SELECT,
`now2` that of the UPDATE.  The returned snapshot is `dict(job)` as
read by the SELECT, i.e. the row before the UPDATE. -/
def fetch_job (s : QueueState) (busy : Bool) (now now2 : Nat) :
    Option Job × QueueState :=
  if busy then
    (none, s)
  else
    match selectOldest (s.jobs.filter (claimable now)) with
    | none => (none, s)
    | some job =>
      (some job,
       { jobs := s.jobs.map (fun j =>
           if j.id == job.id then
             { j with state := JobState.processing, updated_at := now2 }
           else j),
         dlq := s.dlq })

/-- `JobQueue.complete_job(job_id)` (db.py lines 120-130): UPDATE of
`state` and `updated_at` on the rows keyed by `job_id`; a no-op when
no row matches. -/
def complete_job (s : QueueState) (job_id : String) (now : Nat) : QueueState :=
  { jobs := s.jobs.map (fun j =>
      if j.id == job_id then
        { j with state := JobState.completed, updated_at := now }
      else j),
    dlq := s.dlq }

/-- `JobQueue.schedule_retry(job_id, attempts, next_run_at)` (db.py
lines 132-142). -/
def schedule_retry (s : QueueState) (job_id : String) (attempts next_run_at now : Nat) :
    QueueState :=
  { jobs := s.jobs.map (fun j =>
      if j.id == job_id then
        { j with state := JobState.failed, attempts := attempts,
                 run_at := next_run_at, updated_at := now }
      else j),
    dlq := s.dlq }

/-- `JobQueue.move_to_dlq(job)` (db.py lines 144-155): one transaction
inserting the snapshot into `dlq` (its PRIMARY KEY may reject it, in
which case everything rolls back) and deleting the `jobs` rows keyed
by the id of the snapshot.  `state` takes the schema default `dead`,
`failed_at` the schema default CURRENT_TIMESTAMP, modelled as `now`. -/
def move_to_dlq (s : QueueState) (job : Job) (now : Nat) :
    Except QueueState QueueState :=
  if dlqHasId s job.id then
    .error s
  else
    .ok { jobs := s.jobs.filter (fun j => !(j.id == job.id)),
          dlq := s.dlq ++
            [{ id := job.id, command := job.command, state := "dead",
               attempts := job.attempts, max_retries := job.max_retries,
               created_at := job.created_at, failed_at := now }] }

/-- `JobQueue.retry_dlq_job(job_id, config)` (db.py lines 157-182): one
transaction that reads the DLQ row (absent: return False), inserts a
fresh `jobs` row — `attempts` takes the schema default 0, `state` the
default `pending`, `max_retries` comes from the config, not the DLQ
row, `run_at` and `updated_at` are `datetime.now()`, `created_at` is
copied from the DLQ row — and deletes the DLQ row.  A PRIMARY KEY
violation at the INSERT raises and rolls the transaction back. -/
def retry_dlq_job (s : QueueState) (job_id : String) (cfg : Config) (now : Nat) :
    Except QueueState (Bool × QueueState) :=
  match lookupDlq s job_id with
  | none => .ok (false, s)
  | some job =>
    if jobsHasId s job.id then
      .error s
    else
      .ok (true,
        { jobs := s.jobs ++
            [{ id := job.id, command := job.command, state := JobState.pending,
               attempts := 0, max_retries := cfg.max_retries,
               run_at := now, created_at := job.created_at, updated_at := now }],
          dlq := s.dlq.filter (fun r => !(r.id == job.id)) })

/-- `Worker.handle_failure(job)` (worker.py lines 51-71).  The `job`
dict comes from `fetch_job`, so its `max_retries` key is always
present and the dict lookup with a config fallback reads it.  `now` is the
`datetime.now()` used both for `next_run_at` and inside the store
write. -/
def handle_failure (s : QueueState) (job : Job) (cfg : Config) (now : Nat) :
    Except QueueState QueueState :=
  let current_attempts := job.attempts + 1
  let max_retries := job.max_retries
  if current_attempts ≥ max_retries then
    move_to_dlq s { job with attempts := current_attempts } now
  else
    let delay_seconds := cfg.backoff_base ^ current_attempts
    let next_run_at := now + delay_seconds
    .ok (schedule_retry s job.id current_attempts next_run_at now)

/-- The three-valued outcome of running the subprocess of a job in
`Worker.execute_job` (worker.py lines 24-49): exit code 0, a non-zero
exit (or any other exception), or `subprocess.TimeoutExpired`. -/
inductive Outcome
  | ok
  | failed
  | timed_out
deriving DecidableEq, Repr

/-- `Worker.execute_job(job)` (worker.py lines 17-49): on exit code 0
the job is completed, on every failure or timeout `handle_failure`
runs. -/
def execute_job (s : QueueState) (job : Job) (cfg : Config) (outcome : Outcome)
    (now : Nat) : Except QueueState QueueState :=
  match outcome with
  | Outcome.ok => .ok (complete_job s job.id now)
  | Outcome.failed => handle_failure s job cfg now
  | Outcome.timed_out => handle_failure s job cfg now

/-- The JSON object handed to the `enqueue` CLI command, after
`json.loads` succeeded: each field records whether the key is present
and its value. -/
structure ParsedJob where
  command : Option String
  id : Option String
  max_retries : Option Nat
deriving DecidableEq, Repr

/-- The `enqueue` CLI command (cli.py lines 22-53).  `input = none`
models `json.loads` raising JSONDecodeError.  Every branch of the
function body, the error branches included, ends in a plain `return`;
a click command that returns normally makes the process exit 0, so the
first component — the process exit code — is 0 on every path. -/
def cli_enqueue (input : Option ParsedJob) (fresh : String) (cfg : Config)
    (s : QueueState) (now : Nat) : Nat × QueueState :=
  match input with
  | none => (0, s)
  | some p =>
    match p.command with
    | none => (0, s)
    | some cmd =>
      let jd : JobData :=
        { id := some (p.id.getD fresh), command := cmd, max_retries := p.max_retries }
      match enqueue_job s jd cfg fresh now with
      | .ok (_, s2) => (0, s2)
      | .error s2 => (0, s2)

/-- The `dlq retry` CLI command (cli.py lines 165-175).  Both the found
and the not-found branch print a message and return normally, so click
exits 0; an uncaught IntegrityError from `retry_dlq_job` (the id also
live in `jobs`) escapes click and the interpreter exits 1. -/
def cli_dlq_retry (job_id : String) (cfg : Config) (s : QueueState) (now : Nat) :
    Nat × QueueState :=
  match retry_dlq_job s job_id cfg now with
  | .ok (_, s2) => (0, s2)
  | .error s2 => (1, s2)

/-- A job id used by the concrete scenarios below. -/
def idA : String := "a"

/-- A second job id, lexicographically after `idA`. -/
def idB : String := "b"

/-- The fresh uuid stand-in used by the concrete scenarios. -/
def idFresh : String := "f"

/-- A command string used by the concrete scenarios. -/
def cmdEcho : String := "echo hi"

/-- The store with both tables empty. -/
def emptyState : QueueState := { jobs := [], dlq := [] }

/-- The default configuration: `max_retries = 3`, `backoff_base = 2`. -/
def cfg32 : Config := { max_retries := 3, backoff_base := 2 }

/-- A quarantined DLQ row keyed `idA` that exhausted its three tries. -/
def c1dlq : DlqRow :=
  { id := idA, command := cmdEcho, state := "dead", attempts := 3,
    max_retries := 3, created_at := 5, failed_at := 6 }

/-- A store whose only row is `c1dlq`, sitting in the DLQ. -/
def c1s0 : QueueState := { jobs := [], dlq := [c1dlq] }

/-- The `jobs` row produced by retrying `c1dlq` at time 10. -/
def c1job : Job :=
  { id := idA, command := cmdEcho, state := JobState.pending, attempts := 0,
    max_retries := 3, run_at := 10, created_at := 5, updated_at := 10 }

/-- The store after retrying `c1dlq` out of `c1s0` at time 10. -/
def c1s1 : QueueState := { jobs := [c1job], dlq := [] }

/-- The row `c1job` after its successful execution completed at time 11. -/
def c1done : Job := { c1job with state := JobState.completed, updated_at := 11 }

/-- The store after the retried job completed. -/
def c1s2 : QueueState := { jobs := [c1done], dlq := [] }

/-- A job spec reusing the id `idA`, with no explicit `max_retries`. -/
def c2jd : JobData := { id := some idA, command := cmdEcho, max_retries := none }

/-- The row inserted by enqueueing `c2jd` at time 3 under `cfg32`. -/
def c2job : Job :=
  { id := idA, command := cmdEcho, state := JobState.pending, attempts := 0,
    max_retries := 3, run_at := 3, created_at := 3, updated_at := 3 }

/-- The store after enqueueing `c2jd` into `c1s0`: the id now sits in
both tables at once. -/
def c2after : QueueState := { jobs := [c2job], dlq := [c1dlq] }

/-- A claimed job on its last allowed try: two tries recorded, three
allowed. -/
def c3job : Job :=
  { id := idA, command := cmdEcho, state := JobState.processing, attempts := 2,
    max_retries := 3, run_at := 0, created_at := 0, updated_at := 0 }

/-- A store holding only the claimed job `c3job`. -/
def c3s : QueueState := { jobs := [c3job], dlq := [] }

/-- A claimable pending job keyed `idB`, `created_at = 0`. -/
def c4jb : Job :=
  { id := idB, command := cmdEcho, state := JobState.pending, attempts := 0,
    max_retries := 3, run_at := 0, created_at := 0, updated_at := 0 }

/-- A claimable pending job keyed `idA` with the same `created_at` as
`c4jb`. -/
def c4ja : Job := { c4jb with id := idA }

/-- A store where the row keyed `idB` was inserted before the row keyed
`idA`, both with equal `created_at`. -/
def c4s : QueueState := { jobs := [c4jb, c4ja], dlq := [] }

/-- The row `c4jb` once claimed at time 6. -/
def c4jbProc : Job := { c4jb with state := JobState.processing, updated_at := 6 }

/-- The store `c4s` after the claim marked `c4jb` as processing. -/
def c4s2 : QueueState := { jobs := [c4jbProc, c4ja], dlq := [] }

/-- A store holding the id `idA` in both tables at once: a live row and
a DLQ row. -/
def c10s : QueueState := { jobs := [c1job], dlq := [c1dlq] }

/-- The `jobs` row that the INSERT of `retry_dlq_job` writes for the
DLQ row `d` keyed `i`: schema-default `pending` state and 0 attempts,
`max_retries` from the config, `run_at` and `updated_at` now,
`created_at` copied from `d`. -/
def retriedJob (i : String) (d : DlqRow) (cfg : Config) (now : Nat) : Job :=
  { id := i, command := d.command, state := JobState.pending, attempts := 0,
    max_retries := cfg.max_retries, run_at := now, created_at := d.created_at,
    updated_at := now }

/-- The store after the transaction of `retry_dlq_job` committed for
the DLQ row `d` keyed `i`: the fresh row appended to `jobs`, the DLQ
row deleted. -/
def retriedState (s : QueueState) (i : String) (d : DlqRow) (cfg : Config)
    (now : Nat) : QueueState :=
  { jobs := s.jobs ++ [retriedJob i d cfg now],
    dlq := s.dlq.filter (fun r => !(r.id == i)) }

/-- If a predicate finds nothing in the left list, searching the
concatenation searches the right list. -/
theorem find_none_append {α : Type} (p : α → Bool) {l1 : List α} (l2 : List α)
    (h : l1.find? p = none) : (l1 ++ l2).find? p = l2.find? p := by
  rw [List.find?_append, h, Option.none_or]

/-- Mapping a key-preserving row update commutes with looking a key up. -/
theorem find_map_keyed (f : Job → Job) (hf : ∀ j, (f j).id = j.id)
    (l : List Job) (i : String) :
    (l.map f).find? (fun j => j.id == i) =
      Option.map f (l.find? (fun j => j.id == i)) := by
  rw [List.find?_map]
  have hp : ((fun j => j.id == i) ∘ f) = (fun j => j.id == i) := by
    funext j
    simp [Function.comp, hf j]
  rw [hp]

/-- When the `jobs` table has no row keyed `i`, the key lookup is empty. -/
theorem lookupJob_eq_none (s : QueueState) (i : String)
    (h : jobsHasId s i = false) : lookupJob s i = none := by
  rw [lookupJob, List.find?_eq_none]
  intro x hx
  simp only [jobsHasId, List.any_eq_false] at h
  exact h x hx

/-- An empty selection means the scanned list was empty. -/
theorem selectOldest_eq_none {l : List Job} (h : selectOldest l = none) :
    l = [] := by
  cases l with
  | nil => rfl
  | cons a rest =>
    cases hrest : selectOldest rest with
    | none => simp [selectOldest, hrest] at h
    | some k =>
      by_cases hle : a.created_at ≤ k.created_at
      · simp [selectOldest, hrest, hle] at h
      · simp [selectOldest, hrest, hle] at h

/-- The selected row is a row of the scanned list. -/
theorem selectOldest_mem {l : List Job} : ∀ {j : Job},
    selectOldest l = some j → j ∈ l := by
  induction l with
  | nil => intro j h; cases h
  | cons a rest ih =>
    intro j h
    cases hrest : selectOldest rest with
    | none =>
      simp [selectOldest, hrest] at h
      subst h
      exact List.mem_cons_self _ _
    | some k =>
      by_cases hle : a.created_at ≤ k.created_at
      · simp [selectOldest, hrest, hle] at h
        subst h
        exact List.mem_cons_self _ _
      · simp [selectOldest, hrest, hle] at h
        subst h
        exact List.mem_cons_of_mem _ (ih hrest)

/-- The selected row has minimal `created_at` over the scanned list. -/
theorem selectOldest_min {l : List Job} : ∀ {j : Job},
    selectOldest l = some j → ∀ m ∈ l, j.created_at ≤ m.created_at := by
  induction l with
  | nil => intro j h; cases h
  | cons a rest ih =>
    intro j h
    cases hrest : selectOldest rest with
    | none =>
      have hnil := selectOldest_eq_none hrest
      subst hnil
      simp [selectOldest] at h
      subst h
      intro m hm
      rw [List.mem_singleton] at hm
      subst hm
      exact Nat.le_refl _
    | some k =>
      have hk := ih hrest
      by_cases hle : a.created_at ≤ k.created_at
      · simp [selectOldest, hrest, hle] at h
        subst h
        intro m hm
        rcases List.mem_cons.mp hm with hm | hm
        · subst hm; exact Nat.le_refl _
        · exact Nat.le_trans hle (hk m hm)
      · simp [selectOldest, hrest, hle] at h
        subst h
        intro m hm
        rcases List.mem_cons.mp hm with hm | hm
        · subst hm
          exact Nat.le_of_lt (Nat.lt_of_not_le hle)
        · exact hk m hm

/-- The selected row is the leftmost one attaining the minimum: every
row scanned before it has strictly larger `created_at`. -/
theorem selectOldest_leftmost {l : List Job} : ∀ {j : Job},
    selectOldest l = some j →
    ∃ l1 l2, l = l1 ++ j :: l2 ∧ ∀ k ∈ l1, j.created_at < k.created_at := by
  induction l with
  | nil => intro j h; cases h
  | cons a rest ih =>
    intro j h
    cases hrest : selectOldest rest with
    | none =>
      simp [selectOldest, hrest] at h
      subst h
      exact ⟨[], rest, rfl, by intro k hk; cases hk⟩
    | some k =>
      by_cases hle : a.created_at ≤ k.created_at
      · simp [selectOldest, hrest, hle] at h
        subst h
        exact ⟨[], rest, rfl, by intro k hk; cases hk⟩
      · simp [selectOldest, hrest, hle] at h
        subst h
        obtain ⟨r1, r2, hsplit, hlt⟩ := ih hrest
        refine ⟨a :: r1, r2, by rw [hsplit]; rfl, ?_⟩
        intro m hm
        rcases List.mem_cons.mp hm with hm | hm
        · subst hm
          exact Nat.lt_of_not_le hle
        · exact hlt m hm

/-- Destructuring a successful claim: the returned snapshot is the
selection over the claimable rows, and the new state is the UPDATE of
the rows carrying its id. -/
theorem fetch_job_some {s : QueueState} {now now2 : Nat} {j : Job}
    {s2 : QueueState} (h : fetch_job s false now now2 = (some j, s2)) :
    selectOldest (s.jobs.filter (claimable now)) = some j ∧
    s2 = { jobs := s.jobs.map (fun r =>
             if r.id == j.id then
               { r with state := JobState.processing, updated_at := now2 }
             else r),
           dlq := s.dlq } := by
  cases hsel : selectOldest (s.jobs.filter (claimable now)) with
  | none => simp [fetch_job, hsel] at h
  | some job =>
    simp only [fetch_job, Bool.false_eq_true, if_false, hsel] at h
    rw [Prod.mk.injEq] at h
    obtain ⟨h1, h2⟩ := h
    cases h1
    exact ⟨rfl, h2.symm⟩

/-- A row of the claimable selection is a claimable row of the table. -/
theorem mem_claimable {s : QueueState} {now : Nat} {j : Job}
    (h : j ∈ s.jobs.filter (claimable now)) :
    j ∈ s.jobs ∧ claimable now j = true := by
  exact ⟨List.mem_of_mem_filter h, List.of_mem_filter h⟩

/-- A present DLQ row whose id is free in `jobs` is moved back intact:
the committed transaction of `retry_dlq_job` returns true with the
fresh row appended and the DLQ row deleted. -/
theorem retry_dlq_ok (s : QueueState) (i : String) (cfg : Config) (now : Nat)
    (d : DlqRow) (hd : lookupDlq s i = some d) (hj : jobsHasId s i = false) :
    retry_dlq_job s i cfg now = Except.ok (true, retriedState s i d cfg now) := by
  have hd2 : s.dlq.find? (fun r => r.id == i) = some d := hd
  have hdi : d.id = i := by
    have hp := List.find?_some hd2
    simpa using hp
  simp [retry_dlq_job, hd, hdi, hj, retriedState, retriedJob]

/-- C6: a BUSY or LOCKED backend error during the claim does not
propagate: `fetch_job` swallows the OperationalError, returns no job,
and the rolled-back transaction leaves the jobs relation unchanged. -/
theorem C6_busy_claim_is_no_job (s : QueueState) (now now2 : Nat) :
    fetch_job s true now now2 = (none, s) := rfl

/-- C7: the code contradicts the claim that CLI error paths exit
non-zero.  Malformed JOB_JSON, a JSON object without a command field,
and a `dlq retry` of an id absent from the DLQ each print an error and
return normally from the click command, so the process exits 0. -/
theorem C7_cli_error_paths_exit_zero :
    cli_enqueue none idFresh cfg32 emptyState 0 = (0, emptyState) ∧
    cli_enqueue (some { command := none, id := some idA, max_retries := none })
      idFresh cfg32 emptyState 0 = (0, emptyState) ∧
    lookupDlq emptyState idA = none ∧
    cli_dlq_retry idA cfg32 emptyState 0 = (0, emptyState) :=
  ⟨rfl, rfl, rfl, rfl⟩

/-- C2 (amended): enqueue fails with the duplicate-id error — the
raised IntegrityError leaving the store unchanged — exactly when the
id is already live in the `jobs` relation; only `jobsHasId` guards the
INSERT, so an id present only in the DLQ does not block it, and a
successful insert appends one pending row and leaves the DLQ as it
was. -/
theorem C2_enqueue_checks_live_only (s : QueueState) (jd : JobData)
    (cfg : Config) (fresh : String) (now : Nat) :
    (jobsHasId s (jd.id.getD fresh) = true →
      enqueue_job s jd cfg fresh now = Except.error s) ∧
    (jobsHasId s (jd.id.getD fresh) = false →
      enqueue_job s jd cfg fresh now = Except.ok (jd.id.getD fresh,
        { jobs := s.jobs ++
            [{ id := jd.id.getD fresh, command := jd.command,
               state := JobState.pending, attempts := 0,
               max_retries := jd.max_retries.getD cfg.max_retries,
               run_at := now, created_at := now, updated_at := now }],
          dlq := s.dlq })) := by
  constructor
  · intro h
    simp [enqueue_job, h]
  · intro h
    simp [enqueue_job, h]

/-- C2 is false as stated: the id `idA` sits only in the DLQ of `c1s0`,
yet enqueueing a spec with that id succeeds and inserts a live row
instead of failing with a duplicate-id error. -/
theorem C2_counterexample :
    dlqHasId c1s0 idA = true ∧ jobsHasId c1s0 idA = false ∧
    enqueue_job c1s0 c2jd cfg32 idFresh 3 = Except.ok (idA, c2after) := by
  refine ⟨rfl, rfl, ?_⟩
  decide

/-- C2 witness: a successful insert on the concrete store `c1s0`. -/
theorem C2_witness :
    enqueue_job c1s0 c2jd cfg32 idFresh 3 = Except.ok (c2jd.id.getD idFresh,
      { jobs := c1s0.jobs ++
          [{ id := c2jd.id.getD idFresh, command := c2jd.command,
             state := JobState.pending, attempts := 0,
             max_retries := c2jd.max_retries.getD cfg32.max_retries,
             run_at := 3, created_at := 3, updated_at := 3 }],
        dlq := c1s0.dlq }) :=
  (C2_enqueue_checks_live_only c1s0 c2jd cfg32 idFresh 3).2 (by decide)

/-- C5: retrying an absent DLQ id returns false and changes nothing;
retrying a present one (whose id is not simultaneously live in `jobs`)
commits one transaction inserting a fresh pending row — attempts 0,
max_retries from the current config rather than the DLQ row, run_at
and updated_at now, created_at copied from the DLQ row — deletes the
DLQ row, and returns true. -/
theorem C5_retry_dlq_transaction (s : QueueState) (i : String) (cfg : Config)
    (now : Nat) :
    (lookupDlq s i = none → retry_dlq_job s i cfg now = Except.ok (false, s)) ∧
    (∀ d, lookupDlq s i = some d → jobsHasId s i = false →
      retry_dlq_job s i cfg now =
        Except.ok (true, retriedState s i d cfg now)) := by
  refine ⟨?_, fun d hd hj => retry_dlq_ok s i cfg now d hd hj⟩
  intro h
  simp [retry_dlq_job, h]

/-- C5 witness: the concrete DLQ row of `c1s0` is moved back at time 7. -/
theorem C5_witness :
    retry_dlq_job c1s0 idA cfg32 7 =
      Except.ok (true, retriedState c1s0 idA c1dlq cfg32 7) :=
  (C5_retry_dlq_transaction c1s0 idA cfg32 7).2 c1dlq (by decide) (by decide)

/-- C10: retrying a DLQ id that is simultaneously live in `jobs` hits
the PRIMARY KEY of `jobs` at the INSERT: `retry_dlq_job` raises
instead of returning a boolean, and the rolled-back transaction leaves
both relations unchanged. -/
theorem C10_retry_conflict_raises (s : QueueState) (i : String) (cfg : Config)
    (now : Nat) (d : DlqRow) (hd : lookupDlq s i = some d)
    (hj : jobsHasId s i = true) :
    retry_dlq_job s i cfg now = Except.error s := by
  have hd2 : s.dlq.find? (fun r => r.id == i) = some d := hd
  have hdi : d.id = i := by
    have hp := List.find?_some hd2
    simpa using hp
  simp [retry_dlq_job, hd, hdi, hj]

/-- C10 witness: the id `idA` is live and quarantined at once in
`c10s`, and the retry raises, leaving the store unchanged. -/
theorem C10_witness : retry_dlq_job c10s idA cfg32 8 = Except.error c10s :=
  C10_retry_conflict_raises c10s idA cfg32 8 c1dlq (by decide) (by decide)

/-- C1 (amended): retrying a DLQ id and then executing the restored job
successfully leaves the id in the jobs relation in state completed
with attempts = 0 — the completion never touches the counter — and
with the created_at the job had in the DLQ. -/
theorem C1_round_trip_completed (s : QueueState) (i : String) (d : DlqRow)
    (cfg : Config) (now now2 : Nat) (hd : lookupDlq s i = some d)
    (hj : jobsHasId s i = false) :
    ∃ s1 j, retry_dlq_job s i cfg now = Except.ok (true, s1) ∧
      lookupJob s1 i = some j ∧ j.attempts = 0 ∧ j.created_at = d.created_at ∧
      ∃ s2, execute_job s1 j cfg Outcome.ok now2 = Except.ok s2 ∧
        lookupJob s2 i =
          some { j with state := JobState.completed, updated_at := now2 } := by
  have hfind : lookupJob (retriedState s i d cfg now) i =
      some (retriedJob i d cfg now) := by
    show ((s.jobs ++ [retriedJob i d cfg now]).find? (fun j => j.id == i)) = _
    rw [find_none_append _ _ (lookupJob_eq_none s i hj)]
    simp [retriedJob]
  have hupd : lookupJob (complete_job (retriedState s i d cfg now) i now2) i =
      Option.map (fun j =>
        if j.id == i then
          { j with state := JobState.completed, updated_at := now2 }
        else j)
        (lookupJob (retriedState s i d cfg now) i) := by
    exact find_map_keyed _
      (fun j => by by_cases hb : (j.id == i) = true <;> simp [hb]) _ _
  rw [hfind] at hupd
  have hupd2 : lookupJob (complete_job (retriedState s i d cfg now) i now2) i =
      some { retriedJob i d cfg now with
             state := JobState.completed, updated_at := now2 } := by
    rw [hupd]
    simp [retriedJob]
  exact ⟨retriedState s i d cfg now, retriedJob i d cfg now,
    retry_dlq_ok s i cfg now d hd hj, hfind, rfl, rfl,
    complete_job (retriedState s i d cfg now) i now2, rfl, hupd2⟩

/-- C1 is false as stated: retrying the quarantined id `idA` out of
`c1s0` and executing it successfully restores it as completed with its
created_at preserved, but with attempts = 0, not attempts = 1. -/
theorem C1_counterexample :
    retry_dlq_job c1s0 idA cfg32 10 = Except.ok (true, c1s1) ∧
    lookupJob c1s1 idA = some c1job ∧
    execute_job c1s1 c1job cfg32 Outcome.ok 11 = Except.ok c1s2 ∧
    lookupJob c1s2 idA = some c1done ∧
    c1done.state = JobState.completed ∧
    c1done.created_at = c1dlq.created_at ∧
    ¬ c1done.attempts = 1 := by decide

/-- C1 witness: the amended round trip on the concrete store `c1s0`. -/
theorem C1_witness :
    ∃ s1 j, retry_dlq_job c1s0 idA cfg32 10 = Except.ok (true, s1) ∧
      lookupJob s1 idA = some j ∧ j.attempts = 0 ∧
      j.created_at = c1dlq.created_at ∧
      ∃ s2, execute_job s1 j cfg32 Outcome.ok 11 = Except.ok s2 ∧
        lookupJob s2 idA =
          some { j with state := JobState.completed, updated_at := 11 } :=
  C1_round_trip_completed c1s0 idA c1dlq cfg32 10 11 (by decide) (by decide)

/-- C3: for a failed claimed job with a = attempts + 1, the failure
handler moves the job to the DLQ exactly when a ≥ max_retries — the
DLQ row then records exactly max_retries attempts — and otherwise
reschedules it in state failed with attempts = a and
run_at = now + backoff_base ^ a. -/
theorem C3_failure_threshold (s : QueueState) (job : Job) (cfg : Config)
    (now : Nat) (hdlq : dlqHasId s job.id = false)
    (hinv : job.attempts < job.max_retries) :
    (job.attempts + 1 ≥ job.max_retries →
      handle_failure s job cfg now = Except.ok
        { jobs := s.jobs.filter (fun j => !(j.id == job.id)),
          dlq := s.dlq ++
            [{ id := job.id, command := job.command, state := "dead",
               attempts := job.max_retries, max_retries := job.max_retries,
               created_at := job.created_at, failed_at := now }] }) ∧
    (job.attempts + 1 < job.max_retries →
      handle_failure s job cfg now = Except.ok
        (schedule_retry s job.id (job.attempts + 1)
          (now + cfg.backoff_base ^ (job.attempts + 1)) now)) ∧
    (∀ s2, handle_failure s job cfg now = Except.ok s2 →
      (dlqHasId s2 job.id = true ↔ job.attempts + 1 ≥ job.max_retries)) := by
  refine ⟨?_, ?_, ?_⟩
  · intro hth
    have ha : job.attempts + 1 = job.max_retries := Nat.le_antisymm hinv hth
    rw [← ha]
    simp [handle_failure, move_to_dlq, hth, hdlq]
    omega
  · intro hlt
    have hth : ¬ job.attempts + 1 ≥ job.max_retries := Nat.not_le_of_lt hlt
    simp [handle_failure, hth]
  · intro s2 hok
    by_cases hth : job.attempts + 1 ≥ job.max_retries
    · simp [handle_failure, move_to_dlq, hth, hdlq] at hok
      subst hok
      constructor
      · intro _
        exact hth
      · intro _
        simp [dlqHasId]
    · simp [handle_failure, hth] at hok
      subst hok
      constructor
      · intro hda
        exact absurd hda (by simp [schedule_retry, dlqHasId] at hdlq ⊢; exact hdlq)
      · intro hge
        exact absurd hge hth

/-- C3 witness: the claimed job `c3job` on its third failure crosses
the threshold 3 ≥ 3 and is quarantined with exactly 3 recorded
attempts. -/
theorem C3_witness :
    handle_failure c3s c3job cfg32 20 = Except.ok
      { jobs := c3s.jobs.filter (fun j => !(j.id == c3job.id)),
        dlq := c3s.dlq ++
          [{ id := c3job.id, command := c3job.command, state := "dead",
             attempts := c3job.max_retries, max_retries := c3job.max_retries,
             created_at := c3job.created_at, failed_at := 20 }] } :=
  (C3_failure_threshold c3s c3job cfg32 20 (by decide) (by decide)).1 (by decide)

/-- C4 (amended): a successful claim returns a claimable job — state
pending or failed with run_at ≤ now — whose created_at is minimal
among all claimable jobs; ties between equal created_at values are
broken by scan (insertion) order, the SQL naming no id tie-break; the
claimed rows are set to processing with the fresh updated_at and the
DLQ is untouched. -/
theorem C4_claim_oldest (s : QueueState) (now now2 : Nat) (j : Job)
    (s2 : QueueState) (h : fetch_job s false now now2 = (some j, s2)) :
    j ∈ s.jobs ∧ claimable now j = true ∧
    (∀ k ∈ s.jobs, claimable now k = true → j.created_at ≤ k.created_at) ∧
    (∃ l1 l2, s.jobs.filter (claimable now) = l1 ++ j :: l2 ∧
      ∀ k ∈ l1, j.created_at < k.created_at) ∧
    s2.jobs = s.jobs.map (fun r =>
      if r.id == j.id then
        { r with state := JobState.processing, updated_at := now2 }
      else r) ∧
    s2.dlq = s.dlq := by
  obtain ⟨hsel, hs2⟩ := fetch_job_some h
  obtain ⟨hj, hcl⟩ := mem_claimable (selectOldest_mem hsel)
  refine ⟨hj, hcl, ?_, selectOldest_leftmost hsel, by rw [hs2], by rw [hs2]⟩
  intro k hk hclk
  exact selectOldest_min hsel k (List.mem_filter_of_mem hk hclk)

/-- C4 witness: claiming from `c4s` at time 5 returns the job keyed
`idB` and marks its row processing at time 6. -/
theorem C4_witness : c4jb ∈ c4s.jobs ∧ claimable 5 c4jb = true :=
  ⟨(C4_claim_oldest c4s 5 6 c4jb c4s2 (by decide)).1,
   (C4_claim_oldest c4s 5 6 c4jb c4s2 (by decide)).2.1⟩

/-- C4 is false as stated: in `c4s` the two claimable jobs tie on
created_at and the lexicographically smallest id among them is `idA`,
yet the claim returns the earlier-inserted row keyed `idB`. -/
theorem C4_counterexample :
    (fetch_job c4s false 5 6).1 = some c4jb ∧ c4jb.id = idB ∧
    claimable 5 c4ja = true ∧ c4ja.id = idA ∧
    c4ja.created_at = c4jb.created_at ∧ idA.data < idB.data := by decide

/-- C8: completing a job touches only the state and updated_at of the
rows keyed by the given id — their attempts, command, max_retries,
run_at and created_at survive, so a successful execution never
increments the attempt counter — and every other jobs row and the
whole DLQ are unchanged. -/
theorem C8_complete_frame (s : QueueState) (i : String) (now : Nat) :
    (complete_job s i now).dlq = s.dlq ∧
    List.Forall₂ (fun r r2 =>
      r2.id = r.id ∧ r2.command = r.command ∧ r2.attempts = r.attempts ∧
      r2.max_retries = r.max_retries ∧ r2.run_at = r.run_at ∧
      r2.created_at = r.created_at ∧
      (r.id ≠ i → r2 = r) ∧
      (r.id = i → r2.state = JobState.completed ∧ r2.updated_at = now))
      s.jobs (complete_job s i now).jobs := by
  refine ⟨rfl, ?_⟩
  show List.Forall₂ _ s.jobs (s.jobs.map _)
  induction s.jobs with
  | nil => exact List.Forall₂.nil
  | cons a t ih =>
    rw [List.map_cons]
    refine List.Forall₂.cons ?_ ih
    by_cases hid : a.id = i
    · simp [hid]
    · simp [hid]

/-- C8 witness: completing `idA` in the concrete store `c4s` leaves
the DLQ unchanged. -/
theorem C8_witness : (complete_job c4s idA 9).dlq = c4s.dlq :=
  (C8_complete_frame c4s idA 9).1

/-- C9: the snapshot a successful claim returns is the row as it stood
before the claim — a member of the pre-claim table, in state pending
or failed and never processing, with the pre-claim updated_at — while
the stored row now carries processing and the fresh updated_at. -/
theorem C9_snapshot_is_preclaim (s : QueueState) (now now2 : Nat) (j : Job)
    (s2 : QueueState) (h : fetch_job s false now now2 = (some j, s2)) :
    j ∈ s.jobs ∧ (j.state = JobState.pending ∨ j.state = JobState.failed) ∧
    j.state ≠ JobState.processing ∧
    { j with state := JobState.processing, updated_at := now2 } ∈ s2.jobs := by
  obtain ⟨hsel, hs2⟩ := fetch_job_some h
  obtain ⟨hj, hcl⟩ := mem_claimable (selectOldest_mem hsel)
  have hstate : j.state = JobState.pending ∨ j.state = JobState.failed := by
    rcases hst : j.state with _ | _ | _ | _
    · exact Or.inl rfl
    · rw [claimable, hst] at hcl
      simp at hcl
    · exact Or.inr rfl
    · rw [claimable, hst] at hcl
      simp at hcl
  refine ⟨hj, hstate, ?_, ?_⟩
  · intro hp
    rcases hstate with h1 | h1 <;> rw [hp] at h1 <;> cases h1
  · rw [hs2]
    have hm := List.mem_map_of_mem (fun r =>
      if r.id == j.id then
        { r with state := JobState.processing, updated_at := now2 }
      else r) hj
    simpa using hm

/-- C9 witness: the snapshot claimed from `c4s` is in a claimable
pre-claim state. -/
theorem C9_witness :
    c4jb.state = JobState.pending ∨ c4jb.state = JobState.failed :=
  (C9_snapshot_is_preclaim c4s 5 6 c4jb c4s2 (by decide)).2.1
